/-
Verification of the vLLM gRPC client library (vllm-grpc-client).

Shallow embedding of the client's pure data-transformation logic:
  * the typed response model (`_types.py`),
  * the stream accumulator (`_streaming.py`, `GenerateStream`),
  * the non-streaming completion path and the request builder
    (`resources/completions.py`),
  * the error classifier (`_exceptions.py`).

Python floats appearing in sampling parameters are modelled as `Rat`
(the claims only pass them through; no float arithmetic is performed).
Protobuf scalar defaults (0, "", empty list) and Python truthiness on
them are modelled explicitly.  Wall-clock fields (`created`) are not
modelled; they carry no information about the program logic.
-/

import Mathlib

namespace VllmGrpcClient

/-! ## Typed response model (`_types.py`) -/

/-- Token usage statistics for a completion (`CompletionUsage`). -/
structure CompletionUsage where
  prompt_tokens : Nat
  completion_tokens : Nat
  total_tokens : Nat
  cached_tokens : Nat := 0
deriving Repr, DecidableEq

/-- A single completion choice (`CompletionChoice`). -/
structure CompletionChoice where
  index : Nat := 0
  text : String := ""
  token_ids : List Int := []
  finish_reason : Option String := none
deriving Repr, DecidableEq

/-- A complete generation response (`Completion`).  The wall-clock
`created` field and the constant `object` tag are not modelled. -/
structure Completion where
  id : String
  model : String := ""
  choices : List CompletionChoice := []
  usage : Option CompletionUsage := none
deriving Repr, DecidableEq

/-- A single choice in a streaming chunk (`CompletionChunkChoice`). -/
structure CompletionChunkChoice where
  index : Nat := 0
  delta_token_ids : List Int := []
  delta_text : String := ""
  finish_reason : Option String := none
deriving Repr, DecidableEq

/-- A streaming chunk response (`CompletionChunk`). -/
structure CompletionChunk where
  id : String
  model : String := ""
  choices : List CompletionChunkChoice := []
  usage : Option CompletionUsage := none
deriving Repr, DecidableEq

/-! ## Wire messages (`vllm_engine_pb2`, as consumed by the client) -/

/-- A partial streaming chunk from the wire
(`GenerateResponse.chunk`): token ids plus usage counters. -/
structure GenerateStreamChunk where
  token_ids : List Int
  prompt_tokens : Nat
  cached_tokens : Nat
deriving Repr, DecidableEq

/-- The terminal completion message from the wire
(`GenerateResponse.complete`).  `finish_reason` is a proto string whose
absent value is `""`. -/
structure GenerateComplete where
  output_ids : List Int
  prompt_tokens : Nat
  completion_tokens : Nat
  cached_tokens : Nat
  finish_reason : String
deriving Repr, DecidableEq

/-- One message of the response stream (`GenerateResponse`): the proto
oneof is either a chunk, a terminal completion, or neither field set
(the `else` branch of `_process_response`). -/
inductive GenerateResponse where
  | chunk (c : GenerateStreamChunk)
  | complete (c : GenerateComplete)
  | unknown
deriving Repr, DecidableEq

/-- Python truthiness fallback on a proto string:
`s or "stop"` (used for `complete.finish_reason or "stop"`). -/
def orStop (s : String) : String :=
  if s = "" then "stop" else s

/-- Python truthiness fallback on a proto integer:
`a or b` where `0` is falsy (used for
`complete.prompt_tokens or self._total_prompt_tokens` etc.). -/
def natOr (a b : Nat) : Nat :=
  if a = 0 then b else a

/-! ## The stream accumulator (`GenerateStream` of `_streaming.py`) -/

/-- The mutable state of a `GenerateStream`: the fields initialised in
`GenerateStream.__init__`. -/
structure GenerateStreamState where
  request_id : String
  model : String
  final_completion : Option Completion := none
  accumulated_token_ids : List Int := []
  total_prompt_tokens : Nat := 0
  total_completion_tokens : Nat := 0
  cached_tokens : Nat := 0
deriving Repr, DecidableEq

/-- `GenerateStream.__init__(response_iterator, request_id, model)`:
the initial accumulator state. -/
def initState (request_id : String) (model : String) : GenerateStreamState :=
  { request_id := request_id, model := model }

/-- `GenerateStream._process_response`: fold one wire message into the
accumulator state and produce the chunk yielded to the caller. -/
def processResponse (s : GenerateStreamState) (r : GenerateResponse) :
    GenerateStreamState × CompletionChunk :=
  match r with
  | .chunk c =>
    let token_ids := c.token_ids
    let s' := { s with
      accumulated_token_ids := s.accumulated_token_ids ++ token_ids,
      total_prompt_tokens := c.prompt_tokens,
      total_completion_tokens := s.total_completion_tokens + token_ids.length,
      cached_tokens := c.cached_tokens }
    (s', { id := s.request_id, model := s.model,
           choices := [{ index := 0, delta_token_ids := token_ids }],
           usage := some { prompt_tokens := c.prompt_tokens,
                           completion_tokens := token_ids.length,
                           total_tokens := c.prompt_tokens + token_ids.length,
                           cached_tokens := c.cached_tokens } })
  | .complete c =>
    let s' := { s with
      final_completion := some
        { id := s.request_id, model := s.model,
          choices := [{ index := 0,
                        token_ids := s.accumulated_token_ids ++ c.output_ids,
                        finish_reason := some (orStop c.finish_reason) }],
          usage := some
            { prompt_tokens := natOr c.prompt_tokens s.total_prompt_tokens,
              completion_tokens :=
                s.total_completion_tokens + c.output_ids.length,
              total_tokens :=
                natOr c.prompt_tokens s.total_prompt_tokens
                  + s.total_completion_tokens + c.output_ids.length,
              cached_tokens := natOr c.cached_tokens s.cached_tokens } } }
    (s', { id := s.request_id, model := s.model,
           choices := [{ index := 0, delta_token_ids := c.output_ids,
                         finish_reason := some (orStop c.finish_reason) }],
           usage := some { prompt_tokens := c.prompt_tokens,
                           completion_tokens := c.output_ids.length,
                           total_tokens :=
                             c.prompt_tokens + c.output_ids.length,
                           cached_tokens := c.cached_tokens } })
  | .unknown =>
    (s, { id := s.request_id, model := s.model })

/-- Full iteration of the stream: fold every wire message in arrival
order, collecting the yielded chunks. -/
def processAll (s : GenerateStreamState) (msgs : List GenerateResponse) :
    GenerateStreamState × List CompletionChunk :=
  match msgs with
  | [] => (s, [])
  | m :: rest =>
    let step := processResponse s m
    let next := processAll step.1 rest
    (next.1, step.2 :: next.2)

/-- `GenerateStream.get_final_completion`: a pure read of the stored
final completion; the returned state witnesses that the stream is not
advanced. -/
def getFinalCompletion (s : GenerateStreamState) :
    Option Completion × GenerateStreamState :=
  (s.final_completion, s)

/-! ## The non-streaming completion path (`Completions.create`,
`stream=False` branch of `resources/completions.py`) -/

/-- The `for response in response_iterator` loop of the non-streaming
branch: keep the last `complete` message observed, if any. -/
def lastComplete (msgs : List GenerateResponse) : Option GenerateComplete :=
  msgs.foldl
    (fun acc m => match m with
      | .complete c => some c
      | _ => acc)
    none

/-- The non-streaming branch of `Completions.create`: build the
returned `Completion` from the last terminal message alone, or an
empty-choices result when none was observed. -/
def createNonStreaming (request_id : String) (model : String)
    (msgs : List GenerateResponse) : Completion :=
  match lastComplete msgs with
  | none => { id := request_id, model := model }
  | some fr =>
    { id := request_id, model := model,
      choices := [{ index := 0, token_ids := fr.output_ids,
                    finish_reason := some (orStop fr.finish_reason) }],
      usage := some { prompt_tokens := fr.prompt_tokens,
                      completion_tokens := fr.completion_tokens,
                      total_tokens :=
                        fr.prompt_tokens + fr.completion_tokens,
                      cached_tokens := fr.cached_tokens } }

/-! ## Request builder inputs (`_types.py`) -/

/-- Pre-tokenized input for generation (`TokenizedInput`). -/
structure TokenizedInput where
  original_text : String := ""
  input_ids : List Int
deriving Repr, DecidableEq

/-- The dynamic prompt argument (`PromptInput = Union[str,
TokenizedInput, List[int]]`).  `otherShape` models a runtime value of
any other shape, which the builder's `isinstance` chain matches with no
branch. -/
inductive PromptInput where
  | text (s : String)
  | tokenized (t : TokenizedInput)
  | ids (l : List Int)
  | otherShape
deriving Repr, DecidableEq

/-- List of allowed choices for structured output (`ChoiceConstraint`). -/
structure ChoiceConstraint where
  choices : List String := []
deriving Repr, DecidableEq

/-- Structured output constraints (`StructuredOutputs`), with every
field optional as in the Pydantic model. -/
structure StructuredOutputs where
  json_schema : Option String := none
  regex : Option String := none
  grammar : Option String := none
  structural_tag : Option String := none
  json_object : Option Bool := none
  choice : Option ChoiceConstraint := none
deriving Repr, DecidableEq

/-- Python truthiness of an `Optional[str]`: `None` and `""` are falsy. -/
def strTruthy : Option String → Bool
  | none => false
  | some s => s ≠ ""

/-- Python truthiness of an `Optional[bool]`. -/
def boolTruthy : Option Bool → Bool
  | none => false
  | some b => b

/-- Python truthiness of an `Optional[ChoiceConstraint]`: a Pydantic
model instance is always truthy, only `None` is falsy. -/
def choiceTruthy : Option ChoiceConstraint → Bool
  | none => false
  | some _ => true

/-- Python truthiness of an optional list: `None` and `[]` are falsy. -/
def listTruthy {α : Type} : Option (List α) → Bool
  | none => false
  | some l => !l.isEmpty

/-! ## Wire request (`vllm_engine_pb2.GenerateRequest`, as populated by
`_build_generate_request`) -/

/-- The wire `SamplingParams` message, with exactly the fields the
builder writes.  `Option` models proto field presence: the builder sets
the optional scalar fields only when the caller passed a value. -/
structure WireSamplingParams where
  top_p : Rat
  top_k : Int
  min_p : Rat
  frequency_penalty : Rat
  presence_penalty : Rat
  repetition_penalty : Rat
  min_tokens : Int
  skip_special_tokens : Bool
  ignore_eos : Bool
  n : Int
  temperature : Option Rat := none
  max_tokens : Option Int := none
  stop : List String := []
  stop_token_ids : List Int := []
  logprobs : Option Int := none
  prompt_logprobs : Option Int := none
  seed : Option Int := none
  logit_bias : List (Int × Rat) := []
  json_schema : Option String := none
  regex : Option String := none
  grammar : Option String := none
  structural_tag : Option String := none
  json_object : Option Bool := none
  choice : Option (List String) := none
deriving Repr, DecidableEq

/-- The prompt oneof of the wire request: `text`, `tokenized`, or unset
when the builder's `isinstance` chain matched no branch. -/
inductive WirePrompt where
  | unset
  | text (s : String)
  | tokenized (original_text : String) (input_ids : List Int)
deriving Repr, DecidableEq

/-- The wire `GenerateRequest` message. -/
structure GenerateRequest where
  request_id : String
  sampling_params : WireSamplingParams
  stream : Bool
  prompt : WirePrompt
deriving Repr, DecidableEq

/-- The caller-supplied parameter set of `_build_generate_request`
(defaults as in `Completions.create`). -/
structure BuildParams where
  temperature : Option Rat := none
  top_p : Rat := 1
  top_k : Int := 0
  min_p : Rat := 0
  frequency_penalty : Rat := 0
  presence_penalty : Rat := 0
  repetition_penalty : Rat := 1
  max_tokens : Option Int := none
  min_tokens : Int := 0
  stop : Option (List String) := none
  stop_token_ids : Option (List Int) := none
  skip_special_tokens : Bool := true
  ignore_eos : Bool := false
  n : Int := 1
  logprobs : Option Int := none
  prompt_logprobs : Option Int := none
  seed : Option Int := none
  logit_bias : Option (List (Int × Rat)) := none
  structured_outputs : Option StructuredOutputs := none
deriving Repr, DecidableEq

/-- The `if structured_outputs:` block of `_build_generate_request`:
an `if/elif` chain on Python truthiness that writes at most one
constraint field onto the wire sampling params. -/
def applyStructuredOutputs (sp : WireSamplingParams)
    (so : StructuredOutputs) : WireSamplingParams :=
  if strTruthy so.json_schema then { sp with json_schema := so.json_schema }
  else if strTruthy so.regex then { sp with regex := so.regex }
  else if strTruthy so.grammar then { sp with grammar := so.grammar }
  else if strTruthy so.structural_tag then
    { sp with structural_tag := so.structural_tag }
  else if boolTruthy so.json_object then
    { sp with json_object := so.json_object }
  else if choiceTruthy so.choice then
    { sp with choice := some ((so.choice.getD {}).choices) }
  else sp

/-- `_build_generate_request`: build the wire request from the caller's
parameter set, translating each conditional mutation of the Python code
into a functional update. -/
def buildGenerateRequest (prompt : PromptInput) (request_id : String)
    (stream : Bool) (p : BuildParams) : GenerateRequest :=
  let sp : WireSamplingParams :=
    { top_p := p.top_p, top_k := p.top_k, min_p := p.min_p,
      frequency_penalty := p.frequency_penalty,
      presence_penalty := p.presence_penalty,
      repetition_penalty := p.repetition_penalty,
      min_tokens := p.min_tokens,
      skip_special_tokens := p.skip_special_tokens,
      ignore_eos := p.ignore_eos, n := p.n }
  let sp := { sp with temperature := p.temperature }
  let sp := { sp with max_tokens := p.max_tokens }
  let sp := if listTruthy p.stop
    then { sp with stop := p.stop.getD [] } else sp
  let sp := if listTruthy p.stop_token_ids
    then { sp with stop_token_ids := p.stop_token_ids.getD [] } else sp
  let sp := { sp with logprobs := p.logprobs }
  let sp := { sp with prompt_logprobs := p.prompt_logprobs }
  let sp := { sp with seed := p.seed }
  let sp := if listTruthy p.logit_bias
    then { sp with logit_bias := p.logit_bias.getD [] } else sp
  let sp := match p.structured_outputs with
    | some so => applyStructuredOutputs sp so
    | none => sp
  let wp : WirePrompt := match prompt with
    | .text s => .text s
    | .tokenized t => .tokenized t.original_text t.input_ids
    | .ids l => .tokenized "" l
    | .otherShape => .unset
  { request_id := request_id, sampling_params := sp,
    stream := stream, prompt := wp }

/-! ## The error classifier (`_exceptions.py`,
`_exception_from_grpc_error`) -/

/-- The transport status-code domain (`grpc.StatusCode`). -/
inductive StatusCode where
  | ok
  | cancelled
  | unknown
  | invalid_argument
  | deadline_exceeded
  | not_found
  | already_exists
  | permission_denied
  | resource_exhausted
  | failed_precondition
  | aborted
  | out_of_range
  | unimplemented
  | internal
  | unavailable
  | data_loss
  | unauthenticated
deriving Repr, DecidableEq

/-- The `code.name` attribute of a `grpc.StatusCode` member. -/
def StatusCode.name : StatusCode → String
  | .ok => "OK"
  | .cancelled => "CANCELLED"
  | .unknown => "UNKNOWN"
  | .invalid_argument => "INVALID_ARGUMENT"
  | .deadline_exceeded => "DEADLINE_EXCEEDED"
  | .not_found => "NOT_FOUND"
  | .already_exists => "ALREADY_EXISTS"
  | .permission_denied => "PERMISSION_DENIED"
  | .resource_exhausted => "RESOURCE_EXHAUSTED"
  | .failed_precondition => "FAILED_PRECONDITION"
  | .aborted => "ABORTED"
  | .out_of_range => "OUT_OF_RANGE"
  | .unimplemented => "UNIMPLEMENTED"
  | .internal => "INTERNAL"
  | .unavailable => "UNAVAILABLE"
  | .data_loss => "DATA_LOSS"
  | .unauthenticated => "UNAUTHENTICATED"

/-- The eight semantic error kinds: the concrete `VLLMGrpcError`
subclasses plus the base class used as the catch-all. -/
inductive ErrorKind where
  | unavailable
  | timeout
  | invalid_argument
  | aborted
  | unimplemented
  | internal
  | cancelled
  | generic
deriving Repr, DecidableEq

/-- A classified error (`VLLMGrpcError` and subclasses): the subclass
is the `kind`, plus the constructor arguments `message`, `code`,
`details`. -/
structure VLLMGrpcError where
  kind : ErrorKind
  message : String
  code : Option String
  details : Option String
deriving Repr, DecidableEq

/-- Python `f"...{details}"` rendering of the optional detail text
returned by `error.details()`. -/
def pyStr : Option String → String
  | none => "None"
  | some s => s

/-- `_exception_from_grpc_error`: map a transport error (status code
plus optional server detail text) to a classified error. -/
def exceptionFromGrpcError (code : StatusCode) (details : Option String) :
    VLLMGrpcError :=
  if code = .unavailable then
    { kind := .unavailable,
      message := "Server unavailable: " ++ pyStr details,
      code := some code.name, details := details }
  else if code = .deadline_exceeded then
    { kind := .timeout,
      message := "Request timed out: " ++ pyStr details,
      code := some code.name, details := details }
  else if code = .invalid_argument then
    { kind := .invalid_argument,
      message := "Invalid argument: " ++ pyStr details,
      code := some code.name, details := details }
  else if code = .aborted then
    { kind := .aborted,
      message := "Request aborted: " ++ pyStr details,
      code := some code.name, details := details }
  else if code = .unimplemented then
    { kind := .unimplemented,
      message := "RPC not implemented: " ++ pyStr details,
      code := some code.name, details := details }
  else if code = .internal then
    { kind := .internal,
      message := "Internal server error: " ++ pyStr details,
      code := some code.name, details := details }
  else if code = .cancelled then
    { kind := .cancelled,
      message := "Request cancelled: " ++ pyStr details,
      code := some code.name, details := details }
  else
    { kind := .generic,
      message := "gRPC error: " ++ pyStr details,
      code := some code.name, details := details }

/-! ## Helper lemmas on the stream accumulator -/

/-- Whether a wire message is the terminal `complete` message. -/
def isCompleteMsg : GenerateResponse → Bool
  | .complete _ => true
  | _ => false

theorem processAll_append (s : GenerateStreamState)
    (l₁ l₂ : List GenerateResponse) :
    (processAll s (l₁ ++ l₂)).1 = (processAll (processAll s l₁).1 l₂).1 := by
  induction l₁ generalizing s with
  | nil => simp [processAll]
  | cons m rest ih => simp [processAll, ih]

theorem processAll_chunks (s : GenerateStreamState)
    (chunks : List GenerateStreamChunk) :
    (processAll s (chunks.map GenerateResponse.chunk)).1 =
      { request_id := s.request_id, model := s.model,
        final_completion := s.final_completion,
        accumulated_token_ids :=
          s.accumulated_token_ids ++ (chunks.map (·.token_ids)).flatten,
        total_prompt_tokens :=
          chunks.foldl (fun _ c => c.prompt_tokens) s.total_prompt_tokens,
        total_completion_tokens :=
          s.total_completion_tokens + (chunks.map (·.token_ids.length)).sum,
        cached_tokens :=
          chunks.foldl (fun _ c => c.cached_tokens) s.cached_tokens } := by
  induction chunks generalizing s with
  | nil => simp [processAll]
  | cons c rest ih =>
    simp only [List.map_cons, processAll, processResponse, ih, List.foldl_cons,
      List.flatten_cons, List.sum_cons]
    simp [List.append_assoc, Nat.add_assoc]

theorem processResponse_request_id (s : GenerateStreamState)
    (m : GenerateResponse) :
    (processResponse s m).1.request_id = s.request_id := by
  cases m <;> rfl

theorem processResponse_model (s : GenerateStreamState)
    (m : GenerateResponse) :
    (processResponse s m).1.model = s.model := by
  cases m <;> rfl

theorem processAll_request_id (s : GenerateStreamState)
    (msgs : List GenerateResponse) :
    (processAll s msgs).1.request_id = s.request_id := by
  induction msgs generalizing s with
  | nil => rfl
  | cons m rest ih =>
    simp [processAll, ih, processResponse_request_id]

/-- A non-terminal message leaves the stored final completion unchanged. -/
theorem processResponse_final_of_not_complete (s : GenerateStreamState)
    (m : GenerateResponse) (h : isCompleteMsg m = false) :
    (processResponse s m).1.final_completion = s.final_completion := by
  cases m with
  | chunk c => rfl
  | complete c => simp [isCompleteMsg] at h
  | unknown => rfl

theorem processAll_final_of_no_complete (s : GenerateStreamState)
    (msgs : List GenerateResponse)
    (h : ∀ m ∈ msgs, isCompleteMsg m = false) :
    (processAll s msgs).1.final_completion = s.final_completion := by
  induction msgs generalizing s with
  | nil => rfl
  | cons m rest ih =>
    simp only [processAll]
    rw [ih _ fun m hm => h m (List.mem_cons_of_mem _ hm)]
    exact processResponse_final_of_not_complete s m (h m (List.mem_cons_self _ _))

/-- Any stored final completion carries the accumulator's request id. -/
def finalIdOk (s : GenerateStreamState) : Prop :=
  ∀ fin ∈ s.final_completion, fin.id = s.request_id

theorem processResponse_finalIdOk (s : GenerateStreamState)
    (m : GenerateResponse) (h : finalIdOk s) :
    finalIdOk (processResponse s m).1 := by
  cases m with
  | chunk c =>
    intro fin hfin
    exact h fin hfin
  | complete c =>
    intro fin hfin
    simp [processResponse] at hfin
    subst hfin
    rfl
  | unknown =>
    intro fin hfin
    exact h fin hfin

theorem processAll_finalIdOk (s : GenerateStreamState)
    (msgs : List GenerateResponse) (h : finalIdOk s) :
    finalIdOk (processAll s msgs).1 := by
  induction msgs generalizing s with
  | nil => exact h
  | cons m rest ih =>
    simp only [processAll]
    exact ih _ (processResponse_finalIdOk s m h)

/-- Once a final completion is stored, it stays stored. -/
theorem processResponse_final_isSome (s : GenerateStreamState)
    (m : GenerateResponse) (h : s.final_completion.isSome) :
    (processResponse s m).1.final_completion.isSome := by
  cases m with
  | chunk c => exact h
  | complete c => simp [processResponse]
  | unknown => exact h

theorem processAll_final_isSome (s : GenerateStreamState)
    (msgs : List GenerateResponse) (h : s.final_completion.isSome) :
    (processAll s msgs).1.final_completion.isSome := by
  induction msgs generalizing s with
  | nil => exact h
  | cons m rest ih =>
    simp only [processAll]
    exact ih _ (processResponse_final_isSome s m h)

/-! ## Claim theorems -/

/-- Claim C1. For every stream of N non-terminal messages followed by one
terminal message, full iteration stores a final completion whose
completion-token count is the sum of the delta lengths plus the
terminal output length, whose token-id sequence is exactly the deltas
in arrival order followed by the terminal output ids (so its length
equals that count), and whose total tokens equal prompt plus completion
tokens. -/
theorem stream_final_reconciliation (rid model : String)
    (chunks : List GenerateStreamChunk) (c : GenerateComplete) :
    (getFinalCompletion
        (processAll (initState rid model)
          (chunks.map GenerateResponse.chunk ++
            [GenerateResponse.complete c])).1).1 =
      some { id := rid, model := model,
             choices := [{ index := 0, text := "",
                           token_ids :=
                             (chunks.map (·.token_ids)).flatten ++ c.output_ids,
                           finish_reason := some (orStop c.finish_reason) }],
             usage := some
               { prompt_tokens :=
                   natOr c.prompt_tokens
                     (chunks.foldl (fun _ ch => ch.prompt_tokens) 0),
                 completion_tokens :=
                   (chunks.map (·.token_ids.length)).sum + c.output_ids.length,
                 total_tokens :=
                   natOr c.prompt_tokens
                       (chunks.foldl (fun _ ch => ch.prompt_tokens) 0)
                     + ((chunks.map (·.token_ids.length)).sum
                        + c.output_ids.length),
                 cached_tokens :=
                   natOr c.cached_tokens
                     (chunks.foldl (fun _ ch => ch.cached_tokens) 0) } }
    ∧ ((chunks.map (·.token_ids)).flatten ++ c.output_ids).length =
        (chunks.map (·.token_ids.length)).sum + c.output_ids.length := by
  constructor
  · rw [processAll_append, processAll_chunks]
    simp [processAll, processResponse, getFinalCompletion, initState]
    omega
  · simp [List.length_flatten, List.map_map]
    rfl

/-- Claim C9. Processing a wire message that is neither a chunk nor a
complete message yields an empty chunk carrying only the request id and
model name and leaves every accumulator state field unchanged. -/
theorem unknown_message_frame (s : GenerateStreamState) :
    (processResponse s GenerateResponse.unknown).1 = s
    ∧ (processResponse s GenerateResponse.unknown).2 =
        { id := s.request_id, model := s.model,
          choices := [], usage := none } := by
  exact ⟨rfl, rfl⟩

/-- Claim C10. After processing any sequence of non-terminal messages, the
running completion-token counter equals the length of the accumulated
token-id list; each non-terminal fold extends the list by the delta and
increments the counter by exactly the delta's length. -/
theorem chunk_counter_invariant (rid model : String)
    (chunks : List GenerateStreamChunk) :
    ((processAll (initState rid model)
        (chunks.map GenerateResponse.chunk)).1.total_completion_tokens =
      (processAll (initState rid model)
        (chunks.map GenerateResponse.chunk)).1.accumulated_token_ids.length)
    ∧ ∀ (s : GenerateStreamState) (ch : GenerateStreamChunk),
        (processResponse s (GenerateResponse.chunk ch)).1.accumulated_token_ids
            = s.accumulated_token_ids ++ ch.token_ids
        ∧ (processResponse s
              (GenerateResponse.chunk ch)).1.total_completion_tokens
            = s.total_completion_tokens + ch.token_ids.length := by
  constructor
  · rw [processAll_chunks]
    simp [initState, List.length_flatten, List.map_map]
    rfl
  · intro s ch
    exact ⟨rfl, rfl⟩

theorem lastComplete_none_of_no_complete (msgs : List GenerateResponse)
    (h : ∀ m ∈ msgs, isCompleteMsg m = false) :
    lastComplete msgs = none := by
  have general : ∀ (acc : Option GenerateComplete), acc = none →
      msgs.foldl
        (fun acc m => match m with
          | .complete c => some c
          | _ => acc) acc = none := by
    induction msgs with
    | nil => intro acc hacc; exact hacc
    | cons m rest ih =>
      intro acc hacc
      simp only [List.foldl_cons]
      have hm := h m (List.mem_cons_self _ _)
      cases m with
      | chunk c => exact ih (fun m hm => h m (List.mem_cons_of_mem _ hm)) acc hacc
      | complete c => simp [isCompleteMsg] at hm
      | unknown => exact ih (fun m hm => h m (List.mem_cons_of_mem _ hm)) acc hacc
  exact general none rfl

/-- Claim C5. When the stream is exhausted without any terminal message,
`get_final_completion()` returns `none` and the non-streaming path
returns an empty-choices result carrying only the request id and model
name; both paths are total functions, so neither raises. -/
theorem no_terminal_soft_fail (rid model : String)
    (msgs : List GenerateResponse)
    (h : ∀ m ∈ msgs, isCompleteMsg m = false) :
    createNonStreaming rid model msgs =
      { id := rid, model := model, choices := [], usage := none }
    ∧ (getFinalCompletion (processAll (initState rid model) msgs).1).1 =
        none := by
  constructor
  · simp [createNonStreaming, lastComplete_none_of_no_complete msgs h]
  · simp [getFinalCompletion, processAll_final_of_no_complete _ _ h, initState]

/-- Witness for C5 at a concrete terminal-free message sequence. -/
theorem no_terminal_soft_fail_witness :
    createNonStreaming "cmpl-abc" "m"
        [GenerateResponse.chunk ⟨[1], 2, 0⟩, GenerateResponse.unknown] =
      { id := "cmpl-abc", model := "m", choices := [], usage := none }
    ∧ (getFinalCompletion (processAll (initState "cmpl-abc" "m")
        [GenerateResponse.chunk ⟨[1], 2, 0⟩, GenerateResponse.unknown]).1).1 =
        none :=
  no_terminal_soft_fail "cmpl-abc" "m"
    [GenerateResponse.chunk ⟨[1], 2, 0⟩, GenerateResponse.unknown]
    (by decide)

/-- Claim C6. `get_final_completion()` returns `none` before the terminal
message has been processed (including on the fresh accumulator), does
not advance the stream and is idempotent, and once some final
completion is returned its request id is exactly the one supplied to
the accumulator; after a terminal message it does return one. -/
theorem get_final_completion_contract (rid model : String) :
    (getFinalCompletion (initState rid model)).1 = none
    ∧ (∀ s : GenerateStreamState,
        (getFinalCompletion s).2 = s
        ∧ (getFinalCompletion (getFinalCompletion s).2).1 =
            (getFinalCompletion s).1)
    ∧ (∀ msgs : List GenerateResponse,
        (∀ m ∈ msgs, isCompleteMsg m = false) →
        (getFinalCompletion (processAll (initState rid model) msgs).1).1 =
          none)
    ∧ (∀ (msgs : List GenerateResponse) (fin : Completion),
        (getFinalCompletion (processAll (initState rid model) msgs).1).1 =
          some fin → fin.id = rid)
    ∧ (∀ (pre post : List GenerateResponse) (c : GenerateComplete),
        ((getFinalCompletion (processAll (initState rid model)
            (pre ++ [GenerateResponse.complete c] ++ post)).1).1).isSome) := by
  refine ⟨rfl, fun s => ⟨rfl, rfl⟩, ?_, ?_, ?_⟩
  · intro msgs h
    simp [getFinalCompletion, processAll_final_of_no_complete _ _ h, initState]
  · intro msgs fin hfin
    have hok : finalIdOk (processAll (initState rid model) msgs).1 := by
      apply processAll_finalIdOk
      intro f hf
      simp [initState] at hf
    have hid := hok fin (by simpa [getFinalCompletion] using hfin)
    rw [hid, processAll_request_id]
    rfl
  · intro pre post c
    rw [getFinalCompletion, processAll_append, processAll_append]
    apply processAll_final_isSome
    rw [show [GenerateResponse.complete c] = [] ++ [GenerateResponse.complete c] by rfl]
    rw [processAll_append]
    simp [processAll, processResponse]

/-- Witness for C6 at concrete inputs: a fresh accumulator, a
terminal-free prefix, and a processed terminal message. -/
theorem get_final_completion_contract_witness :
    (getFinalCompletion (initState "cmpl-abc" "m")).1 = none
    ∧ (getFinalCompletion (processAll (initState "cmpl-abc" "m")
        [GenerateResponse.chunk ⟨[1, 2], 3, 0⟩]).1).1 = none
    ∧ ((getFinalCompletion (processAll (initState "cmpl-abc" "m")
        ([] ++ [GenerateResponse.complete ⟨[4, 5], 3, 2, 0, "stop"⟩]
          ++ [])).1).1).isSome := by
  refine ⟨(get_final_completion_contract "cmpl-abc" "m").1, ?_, ?_⟩
  · exact (get_final_completion_contract "cmpl-abc" "m").2.2.1
      [GenerateResponse.chunk ⟨[1, 2], 3, 0⟩] (by decide)
  · exact (get_final_completion_contract "cmpl-abc" "m").2.2.2.2
      [] [] ⟨[4, 5], 3, 2, 0, "stop"⟩

/-- Claim C2 counterexample: on a sequence with one non-empty non-terminal
delta, the non-streaming path's result differs from the stream
accumulator's final completion (it drops the delta and uses the
terminal message's own `completion_tokens` field). -/
theorem nonstream_differs_from_stream_final :
    (getFinalCompletion (processAll (initState "cmpl-abc" "m")
        [GenerateResponse.chunk ⟨[1], 3, 0⟩,
         GenerateResponse.complete ⟨[2], 3, 1, 0, "stop"⟩]).1).1 ≠
      some (createNonStreaming "cmpl-abc" "m"
        [GenerateResponse.chunk ⟨[1], 3, 0⟩,
         GenerateResponse.complete ⟨[2], 3, 1, 0, "stop"⟩]) := by
  decide

/-- Claim C2 (amended). On a message sequence consisting of exactly one
terminal message whose `completion_tokens` field equals its output-id
count, the non-streaming path returns precisely the completion the
stream accumulator would store: same request id, token-id sequence,
finish reason and usage. -/
theorem nonstream_matches_stream_on_single_terminal (rid model : String)
    (c : GenerateComplete) (h : c.completion_tokens = c.output_ids.length) :
    (getFinalCompletion (processAll (initState rid model)
        [GenerateResponse.complete c]).1).1 =
      some (createNonStreaming rid model [GenerateResponse.complete c]) := by
  simp [getFinalCompletion, processAll, processResponse, initState,
    createNonStreaming, lastComplete, natOr, h]
  omega

/-- Witness for the amended C2 at a concrete terminal message. -/
theorem nonstream_matches_stream_witness :
    (getFinalCompletion (processAll (initState "cmpl-abc" "m")
        [GenerateResponse.complete ⟨[4, 5], 3, 2, 0, "stop"⟩]).1).1 =
      some (createNonStreaming "cmpl-abc" "m"
        [GenerateResponse.complete ⟨[4, 5], 3, 2, 0, "stop"⟩]) :=
  nonstream_matches_stream_on_single_terminal "cmpl-abc" "m"
    ⟨[4, 5], 3, 2, 0, "stop"⟩ (by decide)

/-! ## Helper lemmas on the request builder -/

/-- The wire sampling params as they stand after all scalar/list field
handling, just before the structured-outputs block. -/
def spBase (p : BuildParams) : WireSamplingParams :=
  { top_p := p.top_p, top_k := p.top_k, min_p := p.min_p,
    frequency_penalty := p.frequency_penalty,
    presence_penalty := p.presence_penalty,
    repetition_penalty := p.repetition_penalty,
    min_tokens := p.min_tokens,
    skip_special_tokens := p.skip_special_tokens,
    ignore_eos := p.ignore_eos, n := p.n,
    temperature := p.temperature,
    max_tokens := p.max_tokens,
    stop := if listTruthy p.stop then p.stop.getD [] else [],
    stop_token_ids :=
      if listTruthy p.stop_token_ids then p.stop_token_ids.getD [] else [],
    logprobs := p.logprobs,
    prompt_logprobs := p.prompt_logprobs,
    seed := p.seed,
    logit_bias := if listTruthy p.logit_bias then p.logit_bias.getD [] else [] }

theorem build_sampling_eq (prompt : PromptInput) (rid : String)
    (stream : Bool) (p : BuildParams) :
    (buildGenerateRequest prompt rid stream p).sampling_params =
      match p.structured_outputs with
      | some so => applyStructuredOutputs (spBase p) so
      | none => spBase p := by
  unfold buildGenerateRequest spBase
  cases hstop : listTruthy p.stop <;>
    cases hids : listTruthy p.stop_token_ids <;>
      cases hlb : listTruthy p.logit_bias <;>
        cases p.structured_outputs <;> simp [hstop, hids, hlb]

theorem build_prompt_eq (prompt : PromptInput) (rid : String)
    (stream : Bool) (p : BuildParams) :
    (buildGenerateRequest prompt rid stream p).prompt =
      match prompt with
      | .text s => WirePrompt.text s
      | .tokenized t => WirePrompt.tokenized t.original_text t.input_ids
      | .ids l => WirePrompt.tokenized "" l
      | .otherShape => WirePrompt.unset := rfl

theorem applyStructuredOutputs_temperature (sp : WireSamplingParams)
    (so : StructuredOutputs) :
    (applyStructuredOutputs sp so).temperature = sp.temperature := by
  unfold applyStructuredOutputs
  split_ifs <;> rfl

theorem strTruthy_isSome (o : Option String) (h : strTruthy o = true) :
    o.isSome = true := by
  cases o <;> simp_all [strTruthy]

theorem boolTruthy_isSome (o : Option Bool) (h : boolTruthy o = true) :
    o.isSome = true := by
  cases o <;> simp_all [boolTruthy]

theorem choiceTruthy_isSome (o : Option ChoiceConstraint)
    (h : choiceTruthy o = true) : o.isSome = true := by
  cases o <;> simp_all [choiceTruthy]

/-- How many of the six structured-output constraint fields the caller
set to a truthy (non-empty) value. -/
def truthyConstraintCount (so : StructuredOutputs) : Nat :=
  (if strTruthy so.json_schema then 1 else 0)
    + (if strTruthy so.regex then 1 else 0)
    + (if strTruthy so.grammar then 1 else 0)
    + (if strTruthy so.structural_tag then 1 else 0)
    + (if boolTruthy so.json_object then 1 else 0)
    + (if choiceTruthy so.choice then 1 else 0)

/-- How many of the six constraint fields are populated on the wire
sampling params. -/
def wireConstraintCount (sp : WireSamplingParams) : Nat :=
  (if sp.json_schema.isSome then 1 else 0)
    + (if sp.regex.isSome then 1 else 0)
    + (if sp.grammar.isSome then 1 else 0)
    + (if sp.structural_tag.isSome then 1 else 0)
    + (if sp.json_object.isSome then 1 else 0)
    + (if sp.choice.isSome then 1 else 0)

/-- Which constraint field wins. -/
inductive PopulatedConstraint where
  | noneSet
  | jsonSchemaSet
  | regexSet
  | grammarSet
  | structuralTagSet
  | jsonObjectSet
  | choiceSet
deriving Repr, DecidableEq

/-- The first truthy constraint field of a `StructuredOutputs` value in
the order json_schema > regex > grammar > structural_tag > json_object
> choice. -/
def firstTruthyConstraint (so : StructuredOutputs) : PopulatedConstraint :=
  if strTruthy so.json_schema then .jsonSchemaSet
  else if strTruthy so.regex then .regexSet
  else if strTruthy so.grammar then .grammarSet
  else if strTruthy so.structural_tag then .structuralTagSet
  else if boolTruthy so.json_object then .jsonObjectSet
  else if choiceTruthy so.choice then .choiceSet
  else .noneSet

/-- Which constraint field is populated on the wire sampling params
(meaningful when at most one is). -/
def populatedConstraint (sp : WireSamplingParams) : PopulatedConstraint :=
  if sp.json_schema.isSome then .jsonSchemaSet
  else if sp.regex.isSome then .regexSet
  else if sp.grammar.isSome then .grammarSet
  else if sp.structural_tag.isSome then .structuralTagSet
  else if sp.json_object.isSome then .jsonObjectSet
  else if sp.choice.isSome then .choiceSet
  else .noneSet

theorem applyStructuredOutputs_characterization (sp : WireSamplingParams)
    (so : StructuredOutputs)
    (hjs : sp.json_schema = none) (hre : sp.regex = none)
    (hgr : sp.grammar = none) (hst : sp.structural_tag = none)
    (hjo : sp.json_object = none) (hch : sp.choice = none)
    (h : 1 ≤ truthyConstraintCount so) :
    wireConstraintCount (applyStructuredOutputs sp so) = 1
    ∧ populatedConstraint (applyStructuredOutputs sp so) =
        firstTruthyConstraint so := by
  unfold applyStructuredOutputs firstTruthyConstraint
  split_ifs with h1 h2 h3 h4 h5 h6
  · have := strTruthy_isSome _ h1
    simp_all [wireConstraintCount, populatedConstraint]
  · have := strTruthy_isSome _ h2
    simp_all [wireConstraintCount, populatedConstraint]
  · have := strTruthy_isSome _ h3
    simp_all [wireConstraintCount, populatedConstraint]
  · have := strTruthy_isSome _ h4
    simp_all [wireConstraintCount, populatedConstraint]
  · have := boolTruthy_isSome _ h5
    simp_all [wireConstraintCount, populatedConstraint]
  · simp_all [wireConstraintCount, populatedConstraint]
  · simp [truthyConstraintCount, h1, h2, h3, h4, h5, h6] at h

/-- Claim C3. When more than one structured-output constraint field is set,
the builder populates exactly one constraint field on the wire request,
namely the first non-empty one in the order json_schema > regex >
grammar > structural_tag > json_object > choice; in particular with
both json_schema and choice set, only json_schema is populated. -/
theorem structured_outputs_precedence (prompt : PromptInput) (rid : String)
    (stream : Bool) (p : BuildParams) (so : StructuredOutputs)
    (h2 : 2 ≤ truthyConstraintCount so) :
    wireConstraintCount
        ((buildGenerateRequest prompt rid stream
          { p with structured_outputs := some so }).sampling_params) = 1
    ∧ populatedConstraint
        ((buildGenerateRequest prompt rid stream
          { p with structured_outputs := some so }).sampling_params) =
        firstTruthyConstraint so
    ∧ (strTruthy so.json_schema = true →
        (buildGenerateRequest prompt rid stream
            { p with structured_outputs := some so }).sampling_params.json_schema
          = so.json_schema
        ∧ (buildGenerateRequest prompt rid stream
            { p with structured_outputs := some so }).sampling_params.choice
          = none) := by
  rw [build_sampling_eq]
  have hchar := applyStructuredOutputs_characterization (spBase
      { p with structured_outputs := some so }) so rfl rfl rfl rfl rfl rfl
    (le_trans (by omega) h2)
  refine ⟨hchar.1, hchar.2, ?_⟩
  intro hjs
  unfold applyStructuredOutputs
  simp [hjs, spBase]

/-- Witness for C3: a constraint with both json_schema and choice set
populates only json_schema. -/
theorem structured_outputs_precedence_witness :
    2 ≤ truthyConstraintCount
        { json_schema := some "s", choice := some { choices := ["a"] } }
    ∧ wireConstraintCount
        ((buildGenerateRequest (.text "x") "cmpl-abc" false
          { structured_outputs := some
              { json_schema := some "s",
                choice := some { choices := ["a"] } } }).sampling_params) = 1
    ∧ populatedConstraint
        ((buildGenerateRequest (.text "x") "cmpl-abc" false
          { structured_outputs := some
              { json_schema := some "s",
                choice := some { choices := ["a"] } } }).sampling_params) =
        firstTruthyConstraint
          { json_schema := some "s", choice := some { choices := ["a"] } }
    ∧ ((buildGenerateRequest (.text "x") "cmpl-abc" false
          { structured_outputs := some
              { json_schema := some "s",
                choice := some { choices := ["a"] } } }).sampling_params.json_schema
        = some "s"
      ∧ (buildGenerateRequest (.text "x") "cmpl-abc" false
          { structured_outputs := some
              { json_schema := some "s",
                choice := some { choices := ["a"] } } }).sampling_params.choice
        = none) := by
  have h := structured_outputs_precedence (.text "x") "cmpl-abc" false {}
    { json_schema := some "s", choice := some { choices := ["a"] } }
    (by decide)
  exact ⟨by decide, h.1, h.2.1, h.2.2 (by decide)⟩

/-- Claim C4 counterexample: the builder does not fail on an out-of-range
temperature — it returns a request carrying temperature -5 — and a
prompt of unsupported shape leaves the wire prompt unset rather than
raising a local invalid-input error. -/
theorem builder_no_local_validation :
    (buildGenerateRequest (.text "hi") "cmpl-abc" false
        { temperature := some (-5) }).sampling_params.temperature =
      some (-5)
    ∧ (buildGenerateRequest .otherShape "cmpl-abc" false {}).prompt =
        WirePrompt.unset := by
  constructor
  · rw [build_sampling_eq]
    rfl
  · rfl

/-- Claim C4 (amended). The builder performs no local validation: it is a
total function whose wire request carries the caller's temperature
verbatim (including out-of-range values), and an unsupported prompt
shape silently leaves the wire prompt unset. -/
theorem builder_total_passthrough (prompt : PromptInput) (rid : String)
    (stream : Bool) (p : BuildParams) :
    (buildGenerateRequest prompt rid stream p).sampling_params.temperature =
      p.temperature
    ∧ (buildGenerateRequest .otherShape rid stream p).prompt =
        WirePrompt.unset := by
  constructor
  · rw [build_sampling_eq]
    cases p.structured_outputs with
    | none => rfl
    | some so =>
      rw [applyStructuredOutputs_temperature]
      rfl
  · rfl

/-- Erase the diagnostic original-text field of a tokenized wire
prompt. -/
def eraseOriginalText (r : GenerateRequest) : GenerateRequest :=
  { r with prompt :=
      match r.prompt with
      | .tokenized _ ids => .tokenized "" ids
      | wp => wp }

/-- Claim C8. A prompt given as a plain integer-id sequence and one given as
a tokenized-input pair with the same ids produce wire requests equal on
every field except the tokenized input's original-text. -/
theorem ids_vs_tokenized_equivalent (rid : String) (stream : Bool)
    (p : BuildParams) (ot : String) (l : List Int) :
    buildGenerateRequest (.ids l) rid stream p =
      eraseOriginalText (buildGenerateRequest (.tokenized ⟨ot, l⟩) rid stream p)
    ∧ (buildGenerateRequest (.ids l) rid stream p).prompt =
        WirePrompt.tokenized "" l
    ∧ (buildGenerateRequest (.tokenized ⟨ot, l⟩) rid stream p).prompt =
        WirePrompt.tokenized ot l := ⟨rfl, rfl, rfl⟩

/-- Claim C7. The error classifier is total and stable on the transport
status-code domain: the kind assigned to a status code does not depend
on the detail text, and every classified error carries a non-empty
human-readable message, the original status-code name, and the
server-supplied detail text. -/
theorem error_classifier_total_stable (c : StatusCode)
    (d d' : Option String) :
    (exceptionFromGrpcError c d).kind = (exceptionFromGrpcError c d').kind
    ∧ (exceptionFromGrpcError c d).code = some c.name
    ∧ (exceptionFromGrpcError c d).details = d
    ∧ 0 < (exceptionFromGrpcError c d).message.length := by
  cases c <;>
    simp [exceptionFromGrpcError, StatusCode.name, String.length_append] <;>
      exact Or.inl (by decide)

end VllmGrpcClient
